import Mathlib

/-!
Shallow embedding of `signer/src/api/new_block.rs`: the `POST /new_block`
webhook handler of the sBTC signer. The handler deserializes a block
notification, filters its contract events down to committed `print` events
from the configured sbtc-registry contract, decodes each surviving event
into a typed registry event, and routes it to one storage write, stopping
with a 500 status on a transient (SqlxQuery) storage failure.

External collaborators (serde deserialization, the clarity-value decoder
`RegistryEvent::try_new`, and the storage gateway) are parameters of the
embedding: the handler is modelled as a function of a parse oracle, a
decode oracle and a write-outcome oracle, and it additionally returns the
trace of decode calls, write attempts and successful writes so that the
control-flow claims can be stated.
-/

namespace NewBlock

/-- Opaque stand-in for a 32-byte Stacks transaction id. -/
structure StacksTxid where
  bytes : Nat
deriving DecidableEq, Repr

/-- Opaque stand-in for a 32-byte Stacks block id (`StacksBlockId`). -/
structure StacksBlockId where
  bytes : Nat
deriving DecidableEq, Repr

/-- Opaque stand-in for a raw clarity value (`ClarityValue`); its internals
are a black box to the handler, which only hands it to the decoder. -/
structure ClarityValue where
  raw : Nat
deriving DecidableEq, Repr

/-- Opaque stand-in for `StandardPrincipalData`, the issuer part of a
qualified contract identifier. -/
structure StandardPrincipalData where
  principal : Nat
deriving DecidableEq, Repr

/-- Stand-in for `clarity::vm::representations::ContractName`. -/
structure ContractName where
  name : String
deriving DecidableEq, Repr

/-- Stand-in for `clarity::vm::types::QualifiedContractIdentifier`: an
issuer principal plus a contract name. -/
structure QualifiedContractIdentifier where
  issuer : StandardPrincipalData
  name : ContractName
deriving DecidableEq, Repr

/-- `QualifiedContractIdentifier::new(issuer, contract_name)`. -/
def QualifiedContractIdentifier.new (issuer : StandardPrincipalData)
    (name : ContractName) : QualifiedContractIdentifier :=
  ⟨issuer, name⟩

/-- `TxInfo { txid, block_id }`: correlation metadata handed to the decoder
together with the raw clarity value. -/
structure TxInfo where
  txid : StacksTxid
  block_id : StacksBlockId
deriving DecidableEq, Repr

/-- The part of the signer configuration the handler reads:
`api.ctx.config().signer.deployer`, the deployer principal. -/
structure Config where
  deployer : Nat
deriving DecidableEq, Repr

/-- `StandardPrincipalData::from(deployer)`. -/
def StandardPrincipalData.fromDeployer (d : Nat) : StandardPrincipalData :=
  ⟨d⟩

/-- Modelled from the spec: the fixed contract name
`SBTC_REGISTRY_CONTRACT_NAME` is defined in `signer/src/api/mod.rs`, which
is not part of the sources here; the spec describes it as the one fixed
contract name combined with the configured principal identity. -/
def SBTC_REGISTRY_CONTRACT_NAME : String := "sbtc-registry"

/-- `ContractName::from(s)`. -/
def ContractName.fromString (s : String) : ContractName :=
  ⟨s⟩

/-- The derivation run on first use of `SBTC_REGISTRY_IDENTIFIER`
(lines 82-88): qualified identifier of the deployer principal with the
fixed registry contract name. -/
def deriveRegistryAddress (config : Config) : QualifiedContractIdentifier :=
  QualifiedContractIdentifier.new
    (StandardPrincipalData.fromDeployer config.deployer)
    (ContractName.fromString SBTC_REGISTRY_CONTRACT_NAME)

/-- State-passing model of `std::sync::OnceLock::get_or_init`: the cell
either already holds a value, which is returned unchanged, or is
initialized from the closure exactly once. Returns the value together
with the new cell state. -/
def OnceLock.get_or_init {α : Type} (cell : Option α) (f : Unit → α) :
    α × Option α :=
  match cell with
  | some v => (v, some v)
  | none => (f (), some (f ()))

/-- Modelled from the spec: a smart-contract event as delivered inside the
webhook payload (`sbtc::webhooks` is outside the sources here); the
handler reads its `contract_identifier`, `topic` and `value` fields. -/
structure ContractEventData where
  contract_identifier : QualifiedContractIdentifier
  topic : String
  value : ClarityValue
deriving DecidableEq, Repr

/-- Modelled from the spec: one element of `NewBlockEvent.events`, with the
`committed` flag, the transaction id and the optional contract event. -/
structure TransactionEvent where
  committed : Bool
  txid : StacksTxid
  contract_event : Option ContractEventData
deriving DecidableEq, Repr

/-- Modelled from the spec: the deserialized `NewBlockEvent` webhook body,
with the fields the handler reads. -/
structure NewBlockEvent where
  block_height : Nat
  index_block_hash : StacksBlockId
  parent_index_block_hash : StacksBlockId
  burn_block_hash : Nat
  events : List TransactionEvent
deriving DecidableEq, Repr

/-- The `StacksBlock` chain-tip record built at lines 102-107; it is used
for tracing only and never gates processing. -/
structure StacksBlock where
  block_hash : StacksBlockId
  block_height : Nat
  parent_hash : StacksBlockId
  bitcoin_anchor : Nat
deriving DecidableEq, Repr

/-- The chain-tip record the handler builds from the notification. -/
def stacksChaintip (nbe : NewBlockEvent) : StacksBlock :=
  ⟨nbe.index_block_hash, nbe.block_height, nbe.parent_index_block_hash,
    nbe.burn_block_hash⟩

/-- Modelled from the spec: payload of a completed-deposit registry event;
its variant-specific fields (outpoint, amounts, sweep data) are opaque to
the handler's control flow and abstracted to one payload blob. -/
structure CompletedDepositEvent where
  payload : Nat
deriving DecidableEq, Repr

/-- Modelled from the spec: payload of a withdrawal-accept registry event,
fields abstracted to one payload blob. -/
structure WithdrawalAcceptEvent where
  payload : Nat
deriving DecidableEq, Repr

/-- Modelled from the spec: payload of a withdrawal-reject registry event,
fields abstracted to one payload blob. -/
structure WithdrawalRejectEvent where
  payload : Nat
deriving DecidableEq, Repr

/-- Modelled from the spec: payload of a withdrawal-create registry event
(stored as a `WithdrawalRequest`), fields abstracted to one payload blob. -/
structure WithdrawalCreateEvent where
  payload : Nat
deriving DecidableEq, Repr

/-- Modelled from the spec: payload of a key-rotation registry event,
fields abstracted to one payload blob. -/
structure KeyRotationEvent where
  payload : Nat
deriving DecidableEq, Repr

/-- Modelled from the spec: the closed five-variant set of typed domain
events produced by the decoder (`sbtc::events::RegistryEvent`). -/
inductive RegistryEvent where
  | CompletedDeposit : CompletedDepositEvent → RegistryEvent
  | WithdrawalAccept : WithdrawalAcceptEvent → RegistryEvent
  | WithdrawalReject : WithdrawalRejectEvent → RegistryEvent
  | WithdrawalCreate : WithdrawalCreateEvent → RegistryEvent
  | KeyRotation : KeyRotationEvent → RegistryEvent
deriving DecidableEq, Repr

/-- Modelled from the spec: the decoder's error (`sbtc::error::Error` as
surfaced by `RegistryEvent::try_new`), opaque to the handler. -/
structure DecodeError where
  code : Nat
deriving DecidableEq, Repr

/-- Modelled from the spec: `crate::error::Error` as classified by the
handler — `SqlxQuery` is the transient storage-infrastructure failure the
handler singles out at line 167, every other failure is non-transient. -/
inductive Error where
  | SqlxQuery : Nat → Error
  | Other : Nat → Error
deriving DecidableEq, Repr

/-- One storage-write operation of the storage gateway (`DbWrite`), one
per registry-event variant. -/
inductive StorageWrite where
  | write_completed_deposit_event : CompletedDepositEvent → StorageWrite
  | write_withdrawal_accept_event : WithdrawalAcceptEvent → StorageWrite
  | write_withdrawal_reject_event : WithdrawalRejectEvent → StorageWrite
  | write_withdrawal_request : WithdrawalCreateEvent → StorageWrite
  | write_rotate_keys_transaction : KeyRotationEvent → StorageWrite
deriving DecidableEq, Repr

/-- An HTTP status code, as in `axum::http::StatusCode` (a wrapped u16). -/
structure StatusCode where
  code : Nat
deriving DecidableEq, Repr

/-- `StatusCode::OK` (200). -/
def StatusCode.OK : StatusCode := ⟨200⟩

/-- `StatusCode::INTERNAL_SERVER_ERROR` (500). -/
def StatusCode.INTERNAL_SERVER_ERROR : StatusCode := ⟨500⟩

/-- The storage-write oracle: outcome of the i-th write attempt of this
request (`none` is success, `some e` the classified failure returned by
the storage gateway). -/
def WriteOracle : Type := Nat → StorageWrite → Option Error

/-- The decode oracle: `RegistryEvent::try_new(value, tx_info)`. -/
def DecodeOracle : Type := ClarityValue → TxInfo → Except DecodeError RegistryEvent

/-- `handle_completed_deposit`: one write of the converted event to
storage, returning the storage outcome. -/
def handle_completed_deposit (write : WriteOracle) (i : Nat)
    (event : CompletedDepositEvent) : Option Error :=
  write i (StorageWrite.write_completed_deposit_event event)

/-- `handle_withdrawal_accept`: one write of the converted event. -/
def handle_withdrawal_accept (write : WriteOracle) (i : Nat)
    (event : WithdrawalAcceptEvent) : Option Error :=
  write i (StorageWrite.write_withdrawal_accept_event event)

/-- `handle_withdrawal_reject`: one write of the converted event. -/
def handle_withdrawal_reject (write : WriteOracle) (i : Nat)
    (event : WithdrawalRejectEvent) : Option Error :=
  write i (StorageWrite.write_withdrawal_reject_event event)

/-- `handle_withdrawal_create`: one write of the converted event. -/
def handle_withdrawal_create (write : WriteOracle) (i : Nat)
    (event : WithdrawalCreateEvent) : Option Error :=
  write i (StorageWrite.write_withdrawal_request event)

/-- `handle_key_rotation`: one write of the converted event. -/
def handle_key_rotation (write : WriteOracle) (i : Nat)
    (event : KeyRotationEvent) : Option Error :=
  write i (StorageWrite.write_rotate_keys_transaction event)

/-- The storage write each registry-event variant is routed to in the
match at lines 142-157. -/
def route : RegistryEvent → StorageWrite
  | RegistryEvent.CompletedDeposit e => StorageWrite.write_completed_deposit_event e
  | RegistryEvent.WithdrawalAccept e => StorageWrite.write_withdrawal_accept_event e
  | RegistryEvent.WithdrawalReject e => StorageWrite.write_withdrawal_reject_event e
  | RegistryEvent.WithdrawalCreate e => StorageWrite.write_withdrawal_request e
  | RegistryEvent.KeyRotation e => StorageWrite.write_rotate_keys_transaction e

/-- The per-variant dispatch of a decoded event to its handler
(lines 142-157): the `res` of one loop iteration. -/
def dispatchEvent (write : WriteOracle) (i : Nat) : RegistryEvent → Option Error
  | RegistryEvent.CompletedDeposit event => handle_completed_deposit write i event
  | RegistryEvent.WithdrawalAccept event => handle_withdrawal_accept write i event
  | RegistryEvent.WithdrawalReject event => handle_withdrawal_reject write i event
  | RegistryEvent.WithdrawalCreate event => handle_withdrawal_create write i event
  | RegistryEvent.KeyRotation event => handle_key_rotation write i event

/-- The event filter of lines 121-127: keep committed transaction events,
project out their contract event paired with the txid, and keep only
events of the registry contract with topic "print". -/
def filterEvents (registry_address : QualifiedContractIdentifier)
    (events : List TransactionEvent) : List (ContractEventData × StacksTxid) :=
  ((events.filter (fun x => x.committed)).filterMap
      (fun x => x.contract_event.map (fun ev => (ev, x.txid)))).filter
    (fun p => decide (p.1.contract_identifier = registry_address ∧ p.1.topic = "print"))

/-- The observable outcome of the per-event loop (lines 137-177): the
final status together with the trace of decoder invocations, of write
attempts with their outcomes, and of successful writes, all in order. -/
structure LoopResult where
  status : StatusCode
  decodeCalls : List (ClarityValue × TxInfo)
  routeCalls : List (StorageWrite × Option Error)
  writes : List StorageWrite
deriving DecidableEq, Repr

/-- The per-event loop of lines 137-177: decode each retained event with
the block's `TxInfo`; on decode error skip it; on a decoded event attempt
its one storage write; a `SqlxQuery` failure aborts the loop with a 500
status, any other failure is logged and skipped. `i` numbers the retained
events, indexing the write oracle. -/
def processEvents (decode : DecodeOracle) (write : WriteOracle)
    (block_id : StacksBlockId) :
    Nat → List (ContractEventData × StacksTxid) → LoopResult
  | _, [] => ⟨StatusCode.OK, [], [], []⟩
  | i, (ev, txid) :: rest =>
    let tx_info : TxInfo := ⟨txid, block_id⟩
    match decode ev.value tx_info with
    | Except.error _ =>
      let r := processEvents decode write block_id (i + 1) rest
      ⟨r.status, (ev.value, tx_info) :: r.decodeCalls, r.routeCalls, r.writes⟩
    | Except.ok revent =>
      match dispatchEvent write i revent with
      | some (Error.SqlxQuery c) =>
        ⟨StatusCode.INTERNAL_SERVER_ERROR, [(ev.value, tx_info)],
          [(route revent, some (Error.SqlxQuery c))], []⟩
      | some (Error.Other c) =>
        let r := processEvents decode write block_id (i + 1) rest
        ⟨r.status, (ev.value, tx_info) :: r.decodeCalls,
          (route revent, some (Error.Other c)) :: r.routeCalls, r.writes⟩
      | none =>
        let r := processEvents decode write block_id (i + 1) rest
        ⟨r.status, (ev.value, tx_info) :: r.decodeCalls,
          (route revent, none) :: r.routeCalls, route revent :: r.writes⟩

/-- The observable outcome of one handler invocation: the response status,
the resolved registry address, and the loop traces. -/
structure HandlerResult where
  status : StatusCode
  registry_address : QualifiedContractIdentifier
  decodeCalls : List (ClarityValue × TxInfo)
  routeCalls : List (StorageWrite × Option Error)
  writes : List StorageWrite
deriving DecidableEq, Repr

/-- `new_block_handler` (lines 73-180): resolve the registry address
through the once-cell, deserialize the body (the `parse` oracle stands for
`serde_json::from_str`; `None` is a deserialization failure, answered with
200 OK and no processing), filter the events, return 200 OK early when no
event survives, otherwise run the per-event loop. Returns the result
together with the new once-cell state. -/
def new_block_handler (parse : String → Option NewBlockEvent)
    (decode : DecodeOracle) (write : WriteOracle) (config : Config)
    (cell : Option QualifiedContractIdentifier) (body : String) :
    HandlerResult × Option QualifiedContractIdentifier :=
  let rc := OnceLock.get_or_init cell (fun _ => deriveRegistryAddress config)
  let registry_address := rc.1
  match parse body with
  | none => (⟨StatusCode.OK, registry_address, [], [], []⟩, rc.2)
  | some new_block_event =>
    let block_id := new_block_event.index_block_hash
    let events := filterEvents registry_address new_block_event.events
    if events.isEmpty then
      (⟨StatusCode.OK, registry_address, [], [], []⟩, rc.2)
    else
      let r := processEvents decode write block_id 0 events
      (⟨r.status, registry_address, r.decodeCalls, r.routeCalls, r.writes⟩, rc.2)

/-- The dispatch of lines 142-157 performs exactly the one storage write
the variant is routed to. -/
theorem dispatchEvent_eq_route (write : WriteOracle) (i : Nat)
    (revent : RegistryEvent) : dispatchEvent write i revent = write i (route revent) := by
  cases revent <;> rfl

theorem processEvents_nil (decode : DecodeOracle) (write : WriteOracle)
    (block_id : StacksBlockId) (i : Nat) :
    processEvents decode write block_id i [] = ⟨StatusCode.OK, [], [], []⟩ := rfl

theorem processEvents_cons_decode_error (decode : DecodeOracle)
    (write : WriteOracle) (block_id : StacksBlockId) (i : Nat)
    (ev : ContractEventData) (t : StacksTxid)
    (rest : List (ContractEventData × StacksTxid)) (e : DecodeError)
    (h : decode ev.value ⟨t, block_id⟩ = Except.error e) :
    processEvents decode write block_id i ((ev, t) :: rest) =
      ⟨(processEvents decode write block_id (i + 1) rest).status,
        (ev.value, (⟨t, block_id⟩ : TxInfo)) ::
          (processEvents decode write block_id (i + 1) rest).decodeCalls,
        (processEvents decode write block_id (i + 1) rest).routeCalls,
        (processEvents decode write block_id (i + 1) rest).writes⟩ := by
  simp only [processEvents, h]

theorem processEvents_cons_sqlx (decode : DecodeOracle) (write : WriteOracle)
    (block_id : StacksBlockId) (i : Nat) (ev : ContractEventData)
    (t : StacksTxid) (rest : List (ContractEventData × StacksTxid))
    (revent : RegistryEvent) (c : Nat)
    (h : decode ev.value ⟨t, block_id⟩ = Except.ok revent)
    (hw : write i (route revent) = some (Error.SqlxQuery c)) :
    processEvents decode write block_id i ((ev, t) :: rest) =
      ⟨StatusCode.INTERNAL_SERVER_ERROR, [(ev.value, (⟨t, block_id⟩ : TxInfo))],
        [(route revent, some (Error.SqlxQuery c))], []⟩ := by
  simp only [processEvents, h, dispatchEvent_eq_route, hw]

theorem processEvents_cons_other (decode : DecodeOracle) (write : WriteOracle)
    (block_id : StacksBlockId) (i : Nat) (ev : ContractEventData)
    (t : StacksTxid) (rest : List (ContractEventData × StacksTxid))
    (revent : RegistryEvent) (c : Nat)
    (h : decode ev.value ⟨t, block_id⟩ = Except.ok revent)
    (hw : write i (route revent) = some (Error.Other c)) :
    processEvents decode write block_id i ((ev, t) :: rest) =
      ⟨(processEvents decode write block_id (i + 1) rest).status,
        (ev.value, (⟨t, block_id⟩ : TxInfo)) ::
          (processEvents decode write block_id (i + 1) rest).decodeCalls,
        (route revent, some (Error.Other c)) ::
          (processEvents decode write block_id (i + 1) rest).routeCalls,
        (processEvents decode write block_id (i + 1) rest).writes⟩ := by
  simp only [processEvents, h, dispatchEvent_eq_route, hw]

theorem processEvents_cons_ok (decode : DecodeOracle) (write : WriteOracle)
    (block_id : StacksBlockId) (i : Nat) (ev : ContractEventData)
    (t : StacksTxid) (rest : List (ContractEventData × StacksTxid))
    (revent : RegistryEvent)
    (h : decode ev.value ⟨t, block_id⟩ = Except.ok revent)
    (hw : write i (route revent) = none) :
    processEvents decode write block_id i ((ev, t) :: rest) =
      ⟨(processEvents decode write block_id (i + 1) rest).status,
        (ev.value, (⟨t, block_id⟩ : TxInfo)) ::
          (processEvents decode write block_id (i + 1) rest).decodeCalls,
        (route revent, none) ::
          (processEvents decode write block_id (i + 1) rest).routeCalls,
        route revent ::
          (processEvents decode write block_id (i + 1) rest).writes⟩ := by
  simp only [processEvents, h, dispatchEvent_eq_route, hw]

/-- Processing `pre ++ rest` when `pre` alone finishes with 200 OK first
processes all of `pre` and then continues with `rest` at the shifted write
index, concatenating the traces. -/
theorem processEvents_append_ok (decode : DecodeOracle) (write : WriteOracle)
    (block_id : StacksBlockId) (pre rest : List (ContractEventData × StacksTxid)) :
    ∀ i : Nat, (processEvents decode write block_id i pre).status = StatusCode.OK →
    processEvents decode write block_id i (pre ++ rest) =
      ⟨(processEvents decode write block_id (i + pre.length) rest).status,
        (processEvents decode write block_id i pre).decodeCalls ++
          (processEvents decode write block_id (i + pre.length) rest).decodeCalls,
        (processEvents decode write block_id i pre).routeCalls ++
          (processEvents decode write block_id (i + pre.length) rest).routeCalls,
        (processEvents decode write block_id i pre).writes ++
          (processEvents decode write block_id (i + pre.length) rest).writes⟩ := by
  induction pre with
  | nil =>
    intro i _
    simp [processEvents_nil]
  | cons p pre ih =>
    obtain ⟨ev, t⟩ := p
    intro i hok
    cases hd : decode ev.value ⟨t, block_id⟩ with
    | error e =>
      rw [processEvents_cons_decode_error _ _ _ _ _ _ _ _ hd] at hok
      rw [List.cons_append, processEvents_cons_decode_error _ _ _ _ _ _ _ _ hd,
        processEvents_cons_decode_error _ _ _ _ _ _ _ _ hd, ih (i + 1) hok]
      simp [Nat.add_assoc, Nat.add_comm, Nat.add_left_comm]
    | ok revent =>
      cases hw : write i (route revent) with
      | none =>
        rw [processEvents_cons_ok _ _ _ _ _ _ _ _ hd hw] at hok
        rw [List.cons_append, processEvents_cons_ok _ _ _ _ _ _ _ _ hd hw,
          processEvents_cons_ok _ _ _ _ _ _ _ _ hd hw, ih (i + 1) hok]
        simp [Nat.add_assoc, Nat.add_comm, Nat.add_left_comm]
      | some err =>
        cases err with
        | SqlxQuery c =>
          rw [processEvents_cons_sqlx _ _ _ _ _ _ _ _ _ hd hw] at hok
          simp [StatusCode.INTERNAL_SERVER_ERROR, StatusCode.OK] at hok
        | Other c =>
          rw [processEvents_cons_other _ _ _ _ _ _ _ _ _ hd hw] at hok
          rw [List.cons_append, processEvents_cons_other _ _ _ _ _ _ _ _ _ hd hw,
            processEvents_cons_other _ _ _ _ _ _ _ _ _ hd hw, ih (i + 1) hok]
          simp [Nat.add_assoc, Nat.add_comm, Nat.add_left_comm]

/-- The loop's status is always 200 OK or 500. -/
theorem processEvents_status_cases (decode : DecodeOracle) (write : WriteOracle)
    (block_id : StacksBlockId)
    (es : List (ContractEventData × StacksTxid)) :
    ∀ i : Nat, (processEvents decode write block_id i es).status = StatusCode.OK ∨
      (processEvents decode write block_id i es).status = StatusCode.INTERNAL_SERVER_ERROR := by
  induction es with
  | nil => intro i; left; rfl
  | cons p es ih =>
    obtain ⟨ev, t⟩ := p
    intro i
    cases hd : decode ev.value ⟨t, block_id⟩ with
    | error e =>
      rw [processEvents_cons_decode_error _ _ _ _ _ _ _ _ hd]
      exact ih (i + 1)
    | ok revent =>
      cases hw : write i (route revent) with
      | none =>
        rw [processEvents_cons_ok _ _ _ _ _ _ _ _ hd hw]
        exact ih (i + 1)
      | some err =>
        cases err with
        | SqlxQuery c =>
          rw [processEvents_cons_sqlx _ _ _ _ _ _ _ _ _ hd hw]
          right; rfl
        | Other c =>
          rw [processEvents_cons_other _ _ _ _ _ _ _ _ _ hd hw]
          exact ih (i + 1)

/-- The loop ends with a 500 status exactly when some attempted write in
its trace failed with the transient `SqlxQuery` classification. -/
theorem processEvents_500_iff (decode : DecodeOracle) (write : WriteOracle)
    (block_id : StacksBlockId)
    (es : List (ContractEventData × StacksTxid)) :
    ∀ i : Nat,
      ((processEvents decode write block_id i es).status = StatusCode.INTERNAL_SERVER_ERROR ↔
        ∃ w c, (w, some (Error.SqlxQuery c)) ∈
          (processEvents decode write block_id i es).routeCalls) := by
  induction es with
  | nil =>
    intro i
    simp [processEvents_nil, StatusCode.INTERNAL_SERVER_ERROR, StatusCode.OK]
  | cons p es ih =>
    obtain ⟨ev, t⟩ := p
    intro i
    cases hd : decode ev.value ⟨t, block_id⟩ with
    | error e =>
      rw [processEvents_cons_decode_error _ _ _ _ _ _ _ _ hd]
      exact ih (i + 1)
    | ok revent =>
      cases hw : write i (route revent) with
      | none =>
        rw [processEvents_cons_ok _ _ _ _ _ _ _ _ hd hw]
        simpa using ih (i + 1)
      | some err =>
        cases err with
        | SqlxQuery c =>
          rw [processEvents_cons_sqlx _ _ _ _ _ _ _ _ _ hd hw]
          simp
        | Other c =>
          rw [processEvents_cons_other _ _ _ _ _ _ _ _ _ hd hw]
          simpa using ih (i + 1)

/-- When the write oracle never reports a transient `SqlxQuery` failure,
the loop always ends with 200 OK. -/
theorem processEvents_ok_of_no_sqlx (decode : DecodeOracle) (write : WriteOracle)
    (block_id : StacksBlockId)
    (es : List (ContractEventData × StacksTxid))
    (h : ∀ (j : Nat) (w : StorageWrite) (c : Nat), write j w ≠ some (Error.SqlxQuery c)) :
    ∀ i : Nat, (processEvents decode write block_id i es).status = StatusCode.OK := by
  induction es with
  | nil => intro i; rfl
  | cons p es ih =>
    obtain ⟨ev, t⟩ := p
    intro i
    cases hd : decode ev.value ⟨t, block_id⟩ with
    | error e =>
      rw [processEvents_cons_decode_error _ _ _ _ _ _ _ _ hd]
      exact ih (i + 1)
    | ok revent =>
      cases hw : write i (route revent) with
      | none =>
        rw [processEvents_cons_ok _ _ _ _ _ _ _ _ hd hw]
        exact ih (i + 1)
      | some err =>
        cases err with
        | SqlxQuery c => exact absurd hw (h i (route revent) c)
        | Other c =>
          rw [processEvents_cons_other _ _ _ _ _ _ _ _ _ hd hw]
          exact ih (i + 1)

/-- The decoder invocations of the loop are exactly the first `k` retained
events, for some `k`, each paired with the `TxInfo` built from its txid and
the block id: decoding proceeds in order and stops only by exhausting the
list or aborting at a transient failure. -/
theorem processEvents_decodeCalls_take (decode : DecodeOracle) (write : WriteOracle)
    (block_id : StacksBlockId)
    (es : List (ContractEventData × StacksTxid)) :
    ∀ i : Nat, ∃ k : Nat,
      (processEvents decode write block_id i es).decodeCalls =
        (es.take k).map (fun p => (p.1.value, (⟨p.2, block_id⟩ : TxInfo))) := by
  induction es with
  | nil => intro i; exact ⟨0, rfl⟩
  | cons p es ih =>
    obtain ⟨ev, t⟩ := p
    intro i
    cases hd : decode ev.value ⟨t, block_id⟩ with
    | error e =>
      obtain ⟨k, hk⟩ := ih (i + 1)
      refine ⟨k + 1, ?_⟩
      rw [processEvents_cons_decode_error _ _ _ _ _ _ _ _ hd]
      simp [hk]
    | ok revent =>
      cases hw : write i (route revent) with
      | none =>
        obtain ⟨k, hk⟩ := ih (i + 1)
        refine ⟨k + 1, ?_⟩
        rw [processEvents_cons_ok _ _ _ _ _ _ _ _ hd hw]
        simp [hk]
      | some err =>
        cases err with
        | SqlxQuery c =>
          refine ⟨1, ?_⟩
          rw [processEvents_cons_sqlx _ _ _ _ _ _ _ _ _ hd hw]
          simp
        | Other c =>
          obtain ⟨k, hk⟩ := ih (i + 1)
          refine ⟨k + 1, ?_⟩
          rw [processEvents_cons_other _ _ _ _ _ _ _ _ _ hd hw]
          simp [hk]

/-- Reference formulation of the event filter, written from the spec's
words (§4.2): one order-preserving pass keeping exactly the committed
entries whose contract identifier equals the configured bridge address
and whose topic is the expected value, paired with their txids. -/
def eventFilterSpec (registry_address : QualifiedContractIdentifier)
    (events : List TransactionEvent) : List (ContractEventData × StacksTxid) :=
  events.filterMap (fun x =>
    match x.contract_event with
    | some ev =>
      if x.committed = true ∧ ev.contract_identifier = registry_address ∧
          ev.topic = "print"
      then some (ev, x.txid) else none
    | none => none)

theorem filterEvents_nil (registry_address : QualifiedContractIdentifier) :
    filterEvents registry_address [] = [] := rfl

/-- One step of the three-stage filter pipeline of lines 121-127. -/
theorem filterEvents_cons (registry_address : QualifiedContractIdentifier)
    (x : TransactionEvent) (es : List TransactionEvent) :
    filterEvents registry_address (x :: es) =
      (match x.contract_event with
       | some ev =>
         if x.committed = true ∧ ev.contract_identifier = registry_address ∧
             ev.topic = "print"
         then (ev, x.txid) :: filterEvents registry_address es
         else filterEvents registry_address es
       | none => filterEvents registry_address es) := by
  obtain ⟨c, t, ce⟩ := x
  cases ce with
  | none => cases c <;> simp [filterEvents, List.filter_cons, List.filterMap_cons]
  | some ev =>
    cases c with
    | false => simp [filterEvents, List.filter_cons, List.filterMap_cons]
    | true =>
      by_cases h : ev.contract_identifier = registry_address ∧ ev.topic = "print"
      · simp [filterEvents, List.filter_cons, List.filterMap_cons, h]
      · simp [filterEvents, List.filter_cons, List.filterMap_cons, h]

/-- The implemented filter coincides with the spec's one-pass description. -/
theorem filterEvents_eq_spec (registry_address : QualifiedContractIdentifier)
    (es : List TransactionEvent) :
    filterEvents registry_address es = eventFilterSpec registry_address es := by
  induction es with
  | nil => rfl
  | cons x es ih =>
    rw [filterEvents_cons]
    obtain ⟨c, t, ce⟩ := x
    cases ce with
    | none => simpa [eventFilterSpec, List.filterMap_cons] using ih
    | some ev =>
      simp only [eventFilterSpec, List.filterMap_cons] at ih ⊢
      split <;> simp_all

/-- The filter output is an order-preserving subsequence of the projected
event stream. -/
theorem filterEvents_sublist (registry_address : QualifiedContractIdentifier)
    (es : List TransactionEvent) :
    (filterEvents registry_address es).Sublist
      (es.filterMap (fun x => x.contract_event.map (fun ev => (ev, x.txid)))) := by
  refine List.Sublist.trans (List.filter_sublist _) ?_
  exact List.Sublist.filterMap _ (List.filter_sublist _)

/-- Membership characterization of the filter output. -/
theorem filterEvents_mem (registry_address : QualifiedContractIdentifier)
    (es : List TransactionEvent) (p : ContractEventData × StacksTxid) :
    p ∈ filterEvents registry_address es ↔
      ∃ x ∈ es, x.committed = true ∧ x.contract_event = some p.1 ∧
        x.txid = p.2 ∧ p.1.contract_identifier = registry_address ∧
        p.1.topic = "print" := by
  rw [filterEvents_eq_spec, eventFilterSpec, List.mem_filterMap]
  constructor
  · rintro ⟨x, hx, hfx⟩
    rcases hce : x.contract_event with _ | ev
    · rw [hce] at hfx
      simp at hfx
    · rw [hce] at hfx
      by_cases hcond : x.committed = true ∧
          ev.contract_identifier = registry_address ∧ ev.topic = "print"
      · have hp : (ev, x.txid) = p := by simpa [hcond] using hfx
        subst hp
        exact ⟨x, hx, hcond.1, hce, rfl, hcond.2.1, hcond.2.2⟩
      · simp [hcond] at hfx
  · rintro ⟨x, hx, hcom, hce, htx, hid, htop⟩
    exact ⟨x, hx, by simp [hce, hcom, hid, htop, htx]⟩

/-- On every path the handler reports the address the once-cell resolved
and returns the once-cell state produced by `get_or_init`. -/
theorem new_block_handler_registry_cell (parse : String → Option NewBlockEvent)
    (decode : DecodeOracle) (write : WriteOracle) (config : Config)
    (cell : Option QualifiedContractIdentifier) (body : String) :
    (new_block_handler parse decode write config cell body).1.registry_address
      = (OnceLock.get_or_init cell (fun _ => deriveRegistryAddress config)).1 ∧
    (new_block_handler parse decode write config cell body).2
      = (OnceLock.get_or_init cell (fun _ => deriveRegistryAddress config)).2 := by
  rcases hp : parse body with _ | nbe
  · exact ⟨by simp [new_block_handler, hp], by simp [new_block_handler, hp]⟩
  · by_cases hemp : (filterEvents
        (OnceLock.get_or_init cell (fun _ => deriveRegistryAddress config)).1
        nbe.events).isEmpty
    · exact ⟨by simp [new_block_handler, hp, hemp], by simp [new_block_handler, hp, hemp]⟩
    · exact ⟨by simp [new_block_handler, hp, hemp], by simp [new_block_handler, hp, hemp]⟩

/-- C3: a request body that does not deserialize into a valid block
notification makes the handler return the success status 200 OK with no
decode call, no write attempt and zero storage writes. -/
theorem unparsable_body_accepted_no_writes (parse : String → Option NewBlockEvent)
    (decode : DecodeOracle) (write : WriteOracle) (config : Config)
    (cell : Option QualifiedContractIdentifier) (body : String)
    (hp : parse body = none) :
    (new_block_handler parse decode write config cell body).1.status = StatusCode.OK ∧
    (new_block_handler parse decode write config cell body).1.writes = [] ∧
    (new_block_handler parse decode write config cell body).1.routeCalls = [] ∧
    (new_block_handler parse decode write config cell body).1.decodeCalls = [] := by
  simp [new_block_handler, hp]

theorem unparsable_body_accepted_no_writes_witness :
    (fun _ : String => (none : Option NewBlockEvent)) "not json" = none ∧
    (new_block_handler (fun _ => none) (fun _ _ => Except.error ⟨0⟩)
        (fun _ _ => none) ⟨0⟩ none "not json").1.status = StatusCode.OK ∧
    (new_block_handler (fun _ => none) (fun _ _ => Except.error ⟨0⟩)
        (fun _ _ => none) ⟨0⟩ none "not json").1.writes = [] ∧
    (new_block_handler (fun _ => none) (fun _ _ => Except.error ⟨0⟩)
        (fun _ _ => none) ⟨0⟩ none "not json").1.routeCalls = [] ∧
    (new_block_handler (fun _ => none) (fun _ _ => Except.error ⟨0⟩)
        (fun _ _ => none) ⟨0⟩ none "not json").1.decodeCalls = [] :=
  ⟨rfl, unparsable_body_accepted_no_writes _ _ _ _ _ _ rfl⟩

/-- C6: a well-formed notification whose filtered event list is empty is
answered with 200 OK and neither decodes nor routes nor writes anything;
in particular the filter result is empty whenever no event's contract
identifier equals the configured bridge address. -/
theorem empty_filter_accepted (parse : String → Option NewBlockEvent)
    (decode : DecodeOracle) (write : WriteOracle) (config : Config)
    (body : String) (nbe : NewBlockEvent)
    (hp : parse body = some nbe)
    (hf : filterEvents (deriveRegistryAddress config) nbe.events = []) :
    ((new_block_handler parse decode write config none body).1.status = StatusCode.OK ∧
     (new_block_handler parse decode write config none body).1.decodeCalls = [] ∧
     (new_block_handler parse decode write config none body).1.routeCalls = [] ∧
     (new_block_handler parse decode write config none body).1.writes = []) ∧
    ∀ (registry : QualifiedContractIdentifier) (es : List TransactionEvent),
      (∀ x ∈ es, ∀ ev : ContractEventData,
        x.contract_event = some ev → ev.contract_identifier ≠ registry) →
      filterEvents registry es = [] := by
  constructor
  · simp [new_block_handler, OnceLock.get_or_init, hp, hf]
  · intro registry es h
    rw [List.eq_nil_iff_forall_not_mem]
    intro p hmem
    rw [filterEvents_mem] at hmem
    obtain ⟨x, hx, _, hce, _, hid, _⟩ := hmem
    exact h x hx p.1 hce hid

/-- C10: the handler's only possible responses are 200 OK and 500, and it
responds 500 exactly when some attempted storage write in this request
failed with the transient `SqlxQuery` error variant. -/
theorem status_dichotomy (parse : String → Option NewBlockEvent)
    (decode : DecodeOracle) (write : WriteOracle) (config : Config)
    (cell : Option QualifiedContractIdentifier) (body : String) :
    ((new_block_handler parse decode write config cell body).1.status = StatusCode.OK ∨
     (new_block_handler parse decode write config cell body).1.status
        = StatusCode.INTERNAL_SERVER_ERROR) ∧
    ((new_block_handler parse decode write config cell body).1.status
        = StatusCode.INTERNAL_SERVER_ERROR ↔
      ∃ (w : StorageWrite) (c : Nat), (w, some (Error.SqlxQuery c)) ∈
        (new_block_handler parse decode write config cell body).1.routeCalls) := by
  rcases hp : parse body with _ | nbe
  · simp [new_block_handler, hp, StatusCode.OK, StatusCode.INTERNAL_SERVER_ERROR]
  · by_cases hemp : (filterEvents
        (OnceLock.get_or_init cell (fun _ => deriveRegistryAddress config)).1
        nbe.events).isEmpty
    · simp [new_block_handler, hp, hemp, StatusCode.OK, StatusCode.INTERNAL_SERVER_ERROR]
    · simp only [new_block_handler, hp, hemp, if_false, Bool.false_eq_true]
      exact ⟨processEvents_status_cases _ _ _ _ 0, processEvents_500_iff _ _ _ _ 0⟩

/-- C7: the registry address is derived from the configuration only when
the once-cell is empty; a call that finds the cell initialized reuses the
cached value unchanged, so across two successive calls the resolved
address stays the one derived on the first call even when the
configuration was mutated in between. -/
theorem registry_address_cached (parse : String → Option NewBlockEvent)
    (decode : DecodeOracle) (write : WriteOracle) (config1 config2 : Config)
    (body1 body2 : String) (v : QualifiedContractIdentifier) :
    ((new_block_handler parse decode write config1 none body1).1.registry_address
        = deriveRegistryAddress config1 ∧
      (new_block_handler parse decode write config1 none body1).2
        = some (deriveRegistryAddress config1)) ∧
    ((new_block_handler parse decode write config2 (some v) body2).1.registry_address = v ∧
      (new_block_handler parse decode write config2 (some v) body2).2 = some v) ∧
    (new_block_handler parse decode write config2
        (new_block_handler parse decode write config1 none body1).2
        body2).1.registry_address
      = deriveRegistryAddress config1 := by
  have h1 := new_block_handler_registry_cell parse decode write config1 none body1
  have h2 := new_block_handler_registry_cell parse decode write config2 (some v) body2
  refine ⟨⟨?_, ?_⟩, ⟨?_, ?_⟩, ?_⟩
  · rw [h1.1]; rfl
  · rw [h1.2]; rfl
  · rw [h2.1]; rfl
  · rw [h2.2]; rfl
  · have h3 := new_block_handler_registry_cell parse decode write config2
      (some (deriveRegistryAddress config1)) body2
    have hc : (new_block_handler parse decode write config1 none body1).2
        = some (deriveRegistryAddress config1) := by rw [h1.2]; rfl
    rw [hc, h3.1]; rfl

/-- When the body parses and the filtered event list is nonempty, the
handler's observable outcome is that of the per-event loop run from write
index 0 on the filtered events with the notification's block hash. -/
theorem new_block_handler_run (parse : String → Option NewBlockEvent)
    (decode : DecodeOracle) (write : WriteOracle) (config : Config)
    (body : String) (nbe : NewBlockEvent)
    (hp : parse body = some nbe)
    (hne : filterEvents (deriveRegistryAddress config) nbe.events ≠ []) :
    (new_block_handler parse decode write config none body).1 =
      ⟨(processEvents decode write nbe.index_block_hash 0
          (filterEvents (deriveRegistryAddress config) nbe.events)).status,
        deriveRegistryAddress config,
        (processEvents decode write nbe.index_block_hash 0
          (filterEvents (deriveRegistryAddress config) nbe.events)).decodeCalls,
        (processEvents decode write nbe.index_block_hash 0
          (filterEvents (deriveRegistryAddress config) nbe.events)).routeCalls,
        (processEvents decode write nbe.index_block_hash 0
          (filterEvents (deriveRegistryAddress config) nbe.events)).writes⟩ := by
  have hemp : (filterEvents (deriveRegistryAddress config) nbe.events).isEmpty = false := by
    cases h : filterEvents (deriveRegistryAddress config) nbe.events
    · exact absurd h hne
    · rfl
  simp [new_block_handler, OnceLock.get_or_init, hp, hemp]

/-- C1: if the events before position N in the filtered list process
without aborting and the Nth retained event decodes but its storage write
fails with the transient `SqlxQuery` error, the handler answers 500, the
decoder is never invoked past the Nth event, the failing write is the last
write attempt, and exactly the successful writes of the first N-1 events
have been performed. -/
theorem transient_failure_stops_processing (parse : String → Option NewBlockEvent)
    (decode : DecodeOracle) (write : WriteOracle) (config : Config)
    (body : String) (nbe : NewBlockEvent)
    (pre post : List (ContractEventData × StacksTxid))
    (ev : ContractEventData) (t : StacksTxid) (d : RegistryEvent) (c : Nat)
    (hp : parse body = some nbe)
    (hf : filterEvents (deriveRegistryAddress config) nbe.events = pre ++ (ev, t) :: post)
    (hpre : (processEvents decode write nbe.index_block_hash 0 pre).status = StatusCode.OK)
    (hd : decode ev.value ⟨t, nbe.index_block_hash⟩ = Except.ok d)
    (hw : write pre.length (route d) = some (Error.SqlxQuery c)) :
    (new_block_handler parse decode write config none body).1.status
        = StatusCode.INTERNAL_SERVER_ERROR ∧
    (new_block_handler parse decode write config none body).1.decodeCalls
        = (processEvents decode write nbe.index_block_hash 0 pre).decodeCalls
          ++ [(ev.value, (⟨t, nbe.index_block_hash⟩ : TxInfo))] ∧
    (new_block_handler parse decode write config none body).1.routeCalls
        = (processEvents decode write nbe.index_block_hash 0 pre).routeCalls
          ++ [(route d, some (Error.SqlxQuery c))] ∧
    (new_block_handler parse decode write config none body).1.writes
        = (processEvents decode write nbe.index_block_hash 0 pre).writes := by
  have hne : filterEvents (deriveRegistryAddress config) nbe.events ≠ [] := by
    rw [hf]; simp
  rw [new_block_handler_run parse decode write config body nbe hp hne, hf]
  have happ := processEvents_append_ok decode write nbe.index_block_hash pre
    ((ev, t) :: post) 0 hpre
  rw [Nat.zero_add] at happ
  rw [processEvents_cons_sqlx decode write nbe.index_block_hash pre.length ev t post
    d c hd hw] at happ
  rw [happ]
  simp

/-- C4: a retained event whose decoding fails is skipped on its own, with
processing continuing on the next retained event; in the concrete shape of
a two-event notification whose first event fails decoding and whose
second decodes and writes fine, the handler answers 200 OK with exactly
one storage write. -/
theorem decode_failure_isolated :
    (∀ (decode : DecodeOracle) (write : WriteOracle) (block_id : StacksBlockId)
        (i : Nat) (ev : ContractEventData) (t : StacksTxid)
        (rest : List (ContractEventData × StacksTxid)) (e : DecodeError),
      decode ev.value ⟨t, block_id⟩ = Except.error e →
      processEvents decode write block_id i ((ev, t) :: rest) =
        ⟨(processEvents decode write block_id (i + 1) rest).status,
          (ev.value, (⟨t, block_id⟩ : TxInfo)) ::
            (processEvents decode write block_id (i + 1) rest).decodeCalls,
          (processEvents decode write block_id (i + 1) rest).routeCalls,
          (processEvents decode write block_id (i + 1) rest).writes⟩) ∧
    (∀ (parse : String → Option NewBlockEvent) (decode : DecodeOracle)
        (write : WriteOracle) (config : Config) (body : String)
        (nbe : NewBlockEvent) (e1 : ContractEventData) (t1 : StacksTxid)
        (e2 : ContractEventData) (t2 : StacksTxid) (err : DecodeError)
        (r2 : RegistryEvent),
      parse body = some nbe →
      filterEvents (deriveRegistryAddress config) nbe.events = [(e1, t1), (e2, t2)] →
      decode e1.value ⟨t1, nbe.index_block_hash⟩ = Except.error err →
      decode e2.value ⟨t2, nbe.index_block_hash⟩ = Except.ok r2 →
      write 1 (route r2) = none →
      (new_block_handler parse decode write config none body).1.status = StatusCode.OK ∧
      (new_block_handler parse decode write config none body).1.writes = [route r2]) := by
  constructor
  · intro decode write block_id i ev t rest e hd
    exact processEvents_cons_decode_error decode write block_id i ev t rest e hd
  · intro parse decode write config body nbe e1 t1 e2 t2 err r2 hp hf hd1 hd2 hw
    have hne : filterEvents (deriveRegistryAddress config) nbe.events ≠ [] := by
      rw [hf]; simp
    rw [new_block_handler_run parse decode write config body nbe hp hne, hf]
    rw [processEvents_cons_decode_error decode write nbe.index_block_hash 0 e1 t1
      [(e2, t2)] err hd1, Nat.zero_add]
    rw [processEvents_cons_ok decode write nbe.index_block_hash 1 e2 t2 [] r2 hd2 hw]
    simp [processEvents_nil]

/-- C5: a retained event whose storage write fails with a non-transient
error is abandoned on its own, processing continuing with the next
retained event; and whenever no write of the request fails with the
transient `SqlxQuery` classification the handler answers 200 OK. -/
theorem non_transient_failure_isolated :
    (∀ (decode : DecodeOracle) (write : WriteOracle) (block_id : StacksBlockId)
        (i : Nat) (ev : ContractEventData) (t : StacksTxid)
        (rest : List (ContractEventData × StacksTxid)) (revent : RegistryEvent) (c : Nat),
      decode ev.value ⟨t, block_id⟩ = Except.ok revent →
      write i (route revent) = some (Error.Other c) →
      processEvents decode write block_id i ((ev, t) :: rest) =
        ⟨(processEvents decode write block_id (i + 1) rest).status,
          (ev.value, (⟨t, block_id⟩ : TxInfo)) ::
            (processEvents decode write block_id (i + 1) rest).decodeCalls,
          (route revent, some (Error.Other c)) ::
            (processEvents decode write block_id (i + 1) rest).routeCalls,
          (processEvents decode write block_id (i + 1) rest).writes⟩) ∧
    (∀ (parse : String → Option NewBlockEvent) (decode : DecodeOracle)
        (write : WriteOracle) (config : Config)
        (cell : Option QualifiedContractIdentifier) (body : String),
      (∀ (j : Nat) (w : StorageWrite) (c : Nat), write j w ≠ some (Error.SqlxQuery c)) →
      (new_block_handler parse decode write config cell body).1.status = StatusCode.OK) := by
  constructor
  · intro decode write block_id i ev t rest revent c hd hw
    exact processEvents_cons_other decode write block_id i ev t rest revent c hd hw
  · intro parse decode write config cell body hno
    rcases hp : parse body with _ | nbe
    · simp [new_block_handler, hp]
    · by_cases hemp : (filterEvents
          (OnceLock.get_or_init cell (fun _ => deriveRegistryAddress config)).1
          nbe.events).isEmpty
      · simp [new_block_handler, hp, hemp]
      · simp only [new_block_handler, hp, hemp, Bool.false_eq_true, if_false]
        exact processEvents_ok_of_no_sqlx decode write _ _ hno 0

/-- C2: the event filter equals the spec's one-pass description, its
output is an order-preserving subsequence of the projected event stream,
a pair belongs to the output exactly when some event of the notification
is committed, carries it, and matches the configured address and the
expected topic, and uncommitted events never influence the output. -/
theorem event_filter_spec (registry_address : QualifiedContractIdentifier)
    (es : List TransactionEvent) :
    filterEvents registry_address es = eventFilterSpec registry_address es ∧
    (filterEvents registry_address es).Sublist
      (es.filterMap (fun x => x.contract_event.map (fun ev => (ev, x.txid)))) ∧
    (∀ p : ContractEventData × StacksTxid,
      p ∈ filterEvents registry_address es ↔
        ∃ x ∈ es, x.committed = true ∧ x.contract_event = some p.1 ∧
          x.txid = p.2 ∧ p.1.contract_identifier = registry_address ∧
          p.1.topic = "print") ∧
    filterEvents registry_address es
      = filterEvents registry_address (es.filter (fun x => x.committed)) := by
  refine ⟨filterEvents_eq_spec registry_address es,
    filterEvents_sublist registry_address es,
    fun p => filterEvents_mem registry_address es p, ?_⟩
  simp [filterEvents, List.filter_filter]

/-- C8: the loop's decoder invocations are, in order, exactly the first k
retained events each paired with the `TxInfo` made of its own txid and the
loop's block id; consequently every `TxInfo` the handler ever hands to the
decoder carries the notification's index block hash. -/
theorem tx_info_block_id_eq_notification :
    (∀ (decode : DecodeOracle) (write : WriteOracle) (block_id : StacksBlockId)
        (i : Nat) (es : List (ContractEventData × StacksTxid)),
      ∃ k : Nat, (processEvents decode write block_id i es).decodeCalls =
        (es.take k).map (fun p => (p.1.value, (⟨p.2, block_id⟩ : TxInfo)))) ∧
    (∀ (parse : String → Option NewBlockEvent) (decode : DecodeOracle)
        (write : WriteOracle) (config : Config) (body : String)
        (nbe : NewBlockEvent),
      parse body = some nbe →
      ∀ p ∈ (new_block_handler parse decode write config none body).1.decodeCalls,
        p.2.block_id = nbe.index_block_hash) := by
  constructor
  · intro decode write block_id i es
    exact processEvents_decodeCalls_take decode write block_id es i
  · intro parse decode write config body nbe hp p hmem
    by_cases hne : filterEvents (deriveRegistryAddress config) nbe.events = []
    · have : (filterEvents (deriveRegistryAddress config) nbe.events).isEmpty := by
        rw [hne]; rfl
      simp [new_block_handler, OnceLock.get_or_init, hp, this] at hmem
    · rw [new_block_handler_run parse decode write config body nbe hp hne] at hmem
      obtain ⟨k, hk⟩ := processEvents_decodeCalls_take decode write
        nbe.index_block_hash (filterEvents (deriveRegistryAddress config) nbe.events) 0
      simp only [hk, List.mem_map] at hmem
      obtain ⟨q, _, hq⟩ := hmem
      rw [← hq]

/-- C9: every pair the filter retains has topic exactly "print", so a
committed event of the configured bridge contract whose topic differs
from "print" never reaches decoding or storage. -/
theorem topic_must_be_print (registry_address : QualifiedContractIdentifier)
    (es : List TransactionEvent) :
    (∀ p ∈ filterEvents registry_address es, p.1.topic = "print") ∧
    (∀ ev : ContractEventData, ev.topic ≠ "print" →
      ∀ t : StacksTxid, (ev, t) ∉ filterEvents registry_address es) := by
  constructor
  · intro p hp
    exact ((filterEvents_mem registry_address es p).mp hp).choose_spec.2.2.2.2.2
  · intro ev hne t hmem
    obtain ⟨x, _, _, _, _, _, htop⟩ := (filterEvents_mem registry_address es (ev, t)).mp hmem
    exact hne htop

/-- Concrete configuration used by the evaluation witnesses. -/
def config0 : Config := ⟨0⟩

/-- The registry address derived from `config0`. -/
def registry0 : QualifiedContractIdentifier := deriveRegistryAddress config0

/-- Concrete txid used by the witnesses. -/
def txid0 : StacksTxid := ⟨0⟩

/-- Second concrete txid used by the witnesses. -/
def txid1 : StacksTxid := ⟨1⟩

/-- Concrete block id used by the witnesses. -/
def blockId0 : StacksBlockId := ⟨0⟩

/-- Concrete clarity value used by the witnesses. -/
def value0 : ClarityValue := ⟨0⟩

/-- Second concrete clarity value used by the witnesses. -/
def value1 : ClarityValue := ⟨1⟩

/-- A committed print event of the registry contract. -/
def ev0 : ContractEventData := ⟨registry0, "print", value0⟩

/-- A second committed print event of the registry contract. -/
def ev1 : ContractEventData := ⟨registry0, "print", value1⟩

/-- A registry print event with topic "transfer" instead of "print". -/
def evTransfer : ContractEventData := ⟨registry0, "transfer", value0⟩

/-- A print event from a different (fishy) contract issuer. -/
def evFishy : ContractEventData := ⟨⟨⟨1⟩, ⟨"sbtc-registry"⟩⟩, "print", value0⟩

/-- One-event notification whose event passes the filter. -/
def nbe1 : NewBlockEvent := ⟨1, blockId0, ⟨1⟩, 0, [⟨true, txid0, some ev0⟩]⟩

/-- Two-event notification whose events both pass the filter. -/
def nbe2 : NewBlockEvent :=
  ⟨1, blockId0, ⟨1⟩, 0, [⟨true, txid0, some ev0⟩, ⟨true, txid1, some ev1⟩]⟩

/-- Notification whose only event is from a different contract. -/
def nbeFishy : NewBlockEvent := ⟨1, blockId0, ⟨1⟩, 0, [⟨true, txid0, some evFishy⟩]⟩

/-- Event list holding one committed registry event with the wrong topic. -/
def esTransfer : List TransactionEvent := [⟨true, txid0, some evTransfer⟩]

/-- Parse oracle returning `nbe1` for every body. -/
def parse1 : String → Option NewBlockEvent := fun _ => some nbe1

/-- Parse oracle returning `nbe2` for every body. -/
def parse2 : String → Option NewBlockEvent := fun _ => some nbe2

/-- Parse oracle returning `nbeFishy` for every body. -/
def parseFishy : String → Option NewBlockEvent := fun _ => some nbeFishy

/-- Decode oracle that always yields a completed-deposit event. -/
def decodeDeposit : DecodeOracle :=
  fun _ _ => Except.ok (RegistryEvent.CompletedDeposit ⟨0⟩)

/-- Decode oracle failing on `value0` and decoding anything else to a
key-rotation event. -/
def decodeFirstBad : DecodeOracle :=
  fun v _ => if v.raw = 0 then Except.error ⟨0⟩
    else Except.ok (RegistryEvent.KeyRotation ⟨0⟩)

/-- Write oracle on which every write succeeds. -/
def writeOk : WriteOracle := fun _ _ => none

/-- Write oracle failing every write with the transient classification. -/
def writeSqlxFail : WriteOracle := fun _ _ => some (Error.SqlxQuery 0)

/-- Write oracle failing every write with a non-transient error. -/
def writeOtherFail : WriteOracle := fun _ _ => some (Error.Other 0)

theorem transient_failure_stops_processing_witness :
    parse1 "" = some nbe1 ∧
    filterEvents (deriveRegistryAddress config0) nbe1.events
      = [] ++ (ev0, txid0) :: [] ∧
    writeSqlxFail (List.length ([] : List (ContractEventData × StacksTxid)))
      (route (RegistryEvent.CompletedDeposit ⟨0⟩)) = some (Error.SqlxQuery 0) ∧
    (new_block_handler parse1 decodeDeposit writeSqlxFail config0 none "").1.status
      = StatusCode.INTERNAL_SERVER_ERROR ∧
    (new_block_handler parse1 decodeDeposit writeSqlxFail config0 none "").1.writes
      = (processEvents decodeDeposit writeSqlxFail nbe1.index_block_hash 0 []).writes :=
  ⟨rfl, by decide, rfl,
    (transient_failure_stops_processing parse1 decodeDeposit writeSqlxFail config0 ""
      nbe1 [] [] ev0 txid0 (RegistryEvent.CompletedDeposit ⟨0⟩) 0
      rfl (by decide) rfl rfl rfl).1,
    (transient_failure_stops_processing parse1 decodeDeposit writeSqlxFail config0 ""
      nbe1 [] [] ev0 txid0 (RegistryEvent.CompletedDeposit ⟨0⟩) 0
      rfl (by decide) rfl rfl rfl).2.2.2⟩

theorem decode_failure_isolated_witness :
    parse2 "" = some nbe2 ∧
    filterEvents (deriveRegistryAddress config0) nbe2.events
      = [(ev0, txid0), (ev1, txid1)] ∧
    decodeFirstBad ev0.value ⟨txid0, nbe2.index_block_hash⟩
      = Except.error ⟨0⟩ ∧
    decodeFirstBad ev1.value ⟨txid1, nbe2.index_block_hash⟩
      = Except.ok (RegistryEvent.KeyRotation ⟨0⟩) ∧
    (new_block_handler parse2 decodeFirstBad writeOk config0 none "").1.status
      = StatusCode.OK ∧
    (new_block_handler parse2 decodeFirstBad writeOk config0 none "").1.writes
      = [route (RegistryEvent.KeyRotation ⟨0⟩)] :=
  ⟨rfl, by decide, rfl, rfl,
    (decode_failure_isolated.2 parse2 decodeFirstBad writeOk config0 "" nbe2
      ev0 txid0 ev1 txid1 ⟨0⟩ (RegistryEvent.KeyRotation ⟨0⟩)
      rfl (by decide) rfl rfl rfl).1,
    (decode_failure_isolated.2 parse2 decodeFirstBad writeOk config0 "" nbe2
      ev0 txid0 ev1 txid1 ⟨0⟩ (RegistryEvent.KeyRotation ⟨0⟩)
      rfl (by decide) rfl rfl rfl).2⟩

theorem non_transient_failure_isolated_witness :
    decodeDeposit ev0.value (⟨txid0, blockId0⟩ : TxInfo)
      = Except.ok (RegistryEvent.CompletedDeposit ⟨0⟩) ∧
    writeOtherFail 0 (route (RegistryEvent.CompletedDeposit ⟨0⟩))
      = some (Error.Other 0) ∧
    processEvents decodeDeposit writeOtherFail blockId0 0 ((ev0, txid0) :: []) =
      ⟨(processEvents decodeDeposit writeOtherFail blockId0 (0 + 1) []).status,
        (ev0.value, (⟨txid0, blockId0⟩ : TxInfo)) ::
          (processEvents decodeDeposit writeOtherFail blockId0 (0 + 1) []).decodeCalls,
        (route (RegistryEvent.CompletedDeposit ⟨0⟩), some (Error.Other 0)) ::
          (processEvents decodeDeposit writeOtherFail blockId0 (0 + 1) []).routeCalls,
        (processEvents decodeDeposit writeOtherFail blockId0 (0 + 1) []).writes⟩ ∧
    (new_block_handler parse1 decodeDeposit writeOtherFail config0 none "").1.status
      = StatusCode.OK :=
  ⟨rfl, rfl,
    non_transient_failure_isolated.1 decodeDeposit writeOtherFail blockId0 0
      ev0 txid0 [] (RegistryEvent.CompletedDeposit ⟨0⟩) 0 rfl rfl,
    non_transient_failure_isolated.2 parse1 decodeDeposit writeOtherFail config0 none ""
      (fun j w c => by simp [writeOtherFail])⟩

theorem empty_filter_accepted_witness :
    parseFishy "" = some nbeFishy ∧
    filterEvents (deriveRegistryAddress config0) nbeFishy.events = [] ∧
    (new_block_handler parseFishy decodeDeposit writeOk config0 none "").1.status
      = StatusCode.OK ∧
    (new_block_handler parseFishy decodeDeposit writeOk config0 none "").1.writes = [] :=
  ⟨rfl, by decide,
    (empty_filter_accepted parseFishy decodeDeposit writeOk config0 "" nbeFishy
      rfl (by decide)).1.1,
    (empty_filter_accepted parseFishy decodeDeposit writeOk config0 "" nbeFishy
      rfl (by decide)).1.2.2.2⟩

theorem tx_info_block_id_eq_notification_witness :
    parse1 "" = some nbe1 ∧
    (value0, (⟨txid0, blockId0⟩ : TxInfo)) ∈
      (new_block_handler parse1 decodeDeposit writeOk config0 none "").1.decodeCalls ∧
    (value0, (⟨txid0, blockId0⟩ : TxInfo)).2.block_id = nbe1.index_block_hash :=
  ⟨rfl, by decide,
    tx_info_block_id_eq_notification.2 parse1 decodeDeposit writeOk config0 "" nbe1
      rfl (value0, ⟨txid0, blockId0⟩) (by decide)⟩

theorem topic_must_be_print_witness :
    evTransfer.topic ≠ "print" ∧
    (evTransfer, txid0) ∉ filterEvents registry0 esTransfer :=
  ⟨by decide,
    (topic_must_be_print registry0 esTransfer).2 evTransfer (by decide) txid0⟩

end NewBlock
